import Mathlib

/-!
Shallow embedding of the OEE (Overall Equipment Effectiveness) calculator
(`oee_calculator.py`) and verification of its specification claims.

Modelling choices:
* Timestamps and durations are rationals (`ℚ`), measured in seconds.
  `pd.Timestamp` subtraction followed by `.total_seconds()` is rational
  subtraction; `clip`, `max`, `min` are the order operations on `ℚ`.
* A raw event row carries the operation name, a parsed start timestamp, an
  optional end timestamp (`none` models a missing or unparsable value, which
  `pd.to_datetime(..., errors="coerce")` turns into `NaT`), and a loss
  category string.
* The value-added-time configuration and the override mapping are association
  lists (Python dicts with string keys).
* `truncate_events` in the Python source mutates its argument DataFrame in
  place through the column assignments of lines 49-62, then rebinds the local
  name to a filtered copy at line 65 (the `prorated_value_added_time` column
  of line 68 lands on that copy only).  The embedding therefore returns a
  pair: the first component is the filtered, prorated table that the function
  returns, and the second component is the state of the caller's table after
  the call (every row, with the end timestamp filled and the three effective
  columns added).
* Python's `round(x, n)` (banker's rounding, half to even) is modelled
  exactly on `ℚ` by `pyRound`.
* `warnings.warn` and `print` diagnostics are side effects with no bearing on
  the returned values; they are not modelled.
-/

/-- A raw input row of the operations DataFrame: operation name, parsed start
timestamp, optional end timestamp (`none` = missing/unparsable, i.e. `NaT`
after coercion), and loss category. -/
structure RawEvent where
  operation : String
  timestamp_start : ℚ
  timestamp_end : Option ℚ
  loss_category : String
deriving DecidableEq, Repr

/-- A row of the caller's table after `truncate_events` has executed its
in-place column assignments (source lines 49-62): the end timestamp has been
filled and the three effective columns exist. -/
structure TruncEvent where
  operation : String
  timestamp_start : ℚ
  timestamp_end : ℚ
  loss_category : String
  effective_start : ℚ
  effective_end : ℚ
  effective_duration : ℚ
deriving DecidableEq, Repr

/-- A row of the filtered table returned by `truncate_events`, carrying the
`prorated_value_added_time` column added at source line 68. -/
structure ProratedEvent extends TruncEvent where
  prorated_value_added_time : ℚ
deriving DecidableEq, Repr

/-- Source lines 77-109.  For an operation absent from the configuration the
result is 0 (line 93).  Otherwise the code builds the expected end
`timestamp_start + S` (line 99) and returns the clamped overlap of
`[timestamp_start, timestamp_start + S)` with `[range_start, range_end)`
(lines 102-109).  Note that the `timestamp_end` argument is received but
never used by the source, which the embedding reproduces. -/
def calculate_prorated_value_added_time (value_added_times : List (String × ℚ))
    (operation : String) (timestamp_start timestamp_end range_start range_end : ℚ) : ℚ :=
  match value_added_times.lookup operation with
  | none => 0
  | some standard_value_added_time =>
    let expected_end := timestamp_start + standard_value_added_time
    let overlap_start := max timestamp_start range_start
    let overlap_end := min expected_end range_end
    let _ := timestamp_end
    max (overlap_end - overlap_start) 0

/-- The per-row effect of source lines 49-62 on the caller's table: parse the
timestamps, fill a missing end timestamp with `end_time` (line 53), clip the
start from below by `start_time` (line 56) and the end from above by
`end_time` (line 57), and record the non-negative effective duration
(lines 60-62). -/
def toTrunc (start_time end_time : ℚ) (e : RawEvent) : TruncEvent :=
  let te := e.timestamp_end.getD end_time
  let es := max e.timestamp_start start_time
  let ee := min te end_time
  { operation := e.operation
    timestamp_start := e.timestamp_start
    timestamp_end := te
    loss_category := e.loss_category
    effective_start := es
    effective_end := ee
    effective_duration := max (ee - es) 0 }

/-- The per-row effect of source lines 68-73: attach the prorated value-added
time, computed from the (already filled) timestamps of the row. -/
def prorateRow (value_added_times : List (String × ℚ)) (start_time end_time : ℚ)
    (r : TruncEvent) : ProratedEvent :=
  { r with
    prorated_value_added_time :=
      calculate_prorated_value_added_time value_added_times r.operation
        r.timestamp_start r.timestamp_end start_time end_time }

/-- Source lines 36-75, `truncate_events`.  The first component is the value
the function returns: rows with positive effective duration (the filter of
line 65), each extended with its prorated value-added time.  The second
component is the caller's table as the call leaves it: every input row, with
the end timestamp filled and the effective columns written in place
(lines 49-62 mutate the argument DataFrame; line 65 rebinds the local name to
a filtered copy, so the filter and the prorated column do not reach the
caller). -/
def truncate_events (value_added_times : List (String × ℚ)) (operations_df : List RawEvent)
    (start_time end_time : ℚ) : List ProratedEvent × List TruncEvent :=
  let mutated := operations_df.map (toTrunc start_time end_time)
  let filtered := mutated.filter (fun r => 0 < r.effective_duration)
  (filtered.map (prorateRow value_added_times start_time end_time), mutated)

/-- Source line 129: `truncated_df["operation"].map(overrides).fillna(...)`.
A row whose operation is a key of the override mapping takes the mapped loss
category; any other row keeps its own.  The guard `if overrides:` of line 128
skips the assignment for an empty mapping, which changes nothing. -/
def applyOverrides (overrides : List (String × String)) (l : List ProratedEvent) :
    List ProratedEvent :=
  if overrides.isEmpty then l
  else l.map (fun r => { r with loss_category := (overrides.lookup r.operation).getD r.loss_category })

/-- Sum of `effective_duration` over the rows whose `loss_category` lies in
the given category list (the `.loc[... .isin(cats)].sum()` aggregations of
source lines 145-155). -/
def lossSum (cats : List String) (l : List ProratedEvent) : ℚ :=
  ((l.filter (fun r => cats.contains r.loss_category)).map
    (fun r => r.effective_duration)).sum

/-- Python's `round` to an integer: round half to even (banker's rounding). -/
def pyRound (q : ℚ) : ℤ :=
  let f := ⌊q⌋
  let frac := q - f
  if frac < 1/2 then f
  else if 1/2 < frac then f + 1
  else if 2 ∣ f then f else f + 1

/-- Python's `round(x, 3)` modelled on `ℚ`. -/
def round3 (q : ℚ) : ℚ := (pyRound (q * 1000) : ℚ) / 1000

/-- Python's `round(x, 2)` modelled on `ℚ`. -/
def round2 (q : ℚ) : ℚ := (pyRound (q * 100) : ℚ) / 100

/-- The local `truncated_df` of `calculate_oee` after source lines 125-129:
the table returned by `truncate_events`, with the loss-category overrides
applied. -/
def truncated_df (value_added_times : List (String × ℚ)) (operations_df : List RawEvent)
    (start_time end_time : ℚ) (overrides : List (String × String)) : List ProratedEvent :=
  applyOverrides overrides (truncate_events value_added_times operations_df start_time end_time).1

/-- Source lines 111-178, `calculate_oee`.  The result record is modelled as
an association list so that the set of keys present is part of the value.
The empty-result branch (lines 132-139) returns only the four ratio keys;
the normal branch (lines 168-178) returns the four ratios and the five
diagnostic totals. -/
def calculate_oee (value_added_times : List (String × ℚ)) (operations_df : List RawEvent)
    (start_time end_time : ℚ) (overrides : List (String × String)) :
    List (String × ℚ) :=
  let truncated_df := truncated_df value_added_times operations_df start_time end_time overrides
  if truncated_df.isEmpty then
    [("availability", 0), ("performance", 0), ("quality", 0), ("oee", 0)]
  else
    let total_time := end_time - start_time
    let availability_losses := lossSum ["unplanned_stop", "planned_stop"] truncated_df
    let performance_losses := lossSum ["small_stop", "speed_loss"] truncated_df
    let quality_losses := lossSum ["rework/scrap", "startup_loss"] truncated_df
    let value_added_time := (truncated_df.map (fun r => r.prorated_value_added_time)).sum
    let availability :=
      if 0 < total_time then max ((total_time - availability_losses) / total_time) 0 else 0
    let performance :=
      if 0 < total_time then max (1 - performance_losses / total_time) 0 else 0
    let quality :=
      if 0 < total_time then max (1 - quality_losses / total_time) 0 else 0
    let oee := availability * performance * quality
    [("availability", round3 availability), ("performance", round3 performance),
     ("quality", round3 quality), ("oee", round3 oee),
     ("value_added_time", round2 value_added_time),
     ("availability_losses", round2 availability_losses),
     ("performance_losses", round2 performance_losses),
     ("quality_losses", round2 quality_losses),
     ("total_time", round2 total_time)]

/-- Projection of a mutated row back onto the caller-visible input columns:
what the caller's table holds after `truncate_events` returns, viewed through
the original schema. -/
def callerView (r : TruncEvent) : RawEvent :=
  { operation := r.operation
    timestamp_start := r.timestamp_start
    timestamp_end := some r.timestamp_end
    loss_category := r.loss_category }

/-! ## Basic structural lemmas about the pipeline -/

theorem truncate_events_fst (vat : List (String × ℚ)) (df : List RawEvent) (s t : ℚ) :
    (truncate_events vat df s t).1 =
      ((df.map (toTrunc s t)).filter (fun r => 0 < r.effective_duration)).map
        (prorateRow vat s t) := rfl

theorem truncate_events_snd (vat : List (String × ℚ)) (df : List RawEvent) (s t : ℚ) :
    (truncate_events vat df s t).2 = df.map (toTrunc s t) := rfl

theorem prorateRow_toTruncEvent (vat : List (String × ℚ)) (s t : ℚ) (r : TruncEvent) :
    (prorateRow vat s t r).toTruncEvent = r := rfl

theorem toTrunc_effective_duration_nonneg (s t : ℚ) (e : RawEvent) :
    0 ≤ (toTrunc s t e).effective_duration := le_max_right _ 0

theorem mem_truncate_fst_duration_pos (vat : List (String × ℚ)) (df : List RawEvent)
    (s t : ℚ) (r : ProratedEvent) (hr : r ∈ (truncate_events vat df s t).1) :
    0 < r.effective_duration := by
  rw [truncate_events_fst] at hr
  rcases List.mem_map.mp hr with ⟨r0, hr0, rfl⟩
  rcases List.mem_filter.mp hr0 with ⟨-, hpos⟩
  simpa using of_decide_eq_true hpos

theorem applyOverrides_nil (o : List (String × String)) : applyOverrides o [] = [] := by
  unfold applyOverrides; split <;> rfl

theorem applyOverrides_ne_nil (o : List (String × String)) (l : List ProratedEvent)
    (h : l ≠ []) : applyOverrides o l ≠ [] := by
  unfold applyOverrides; split
  · exact h
  · simpa using h

theorem mem_applyOverrides_duration (o : List (String × String)) (l : List ProratedEvent)
    (r : ProratedEvent) (hr : r ∈ applyOverrides o l) :
    ∃ r0 ∈ l, r.effective_duration = r0.effective_duration ∧
      r.prorated_value_added_time = r0.prorated_value_added_time := by
  unfold applyOverrides at hr
  split at hr
  · exact ⟨r, hr, rfl, rfl⟩
  · rcases List.mem_map.mp hr with ⟨r0, hr0, rfl⟩
    exact ⟨r0, hr0, rfl, rfl⟩

theorem truncated_df_duration_pos (vat : List (String × ℚ)) (df : List RawEvent)
    (s t : ℚ) (o : List (String × String)) (r : ProratedEvent)
    (hr : r ∈ truncated_df vat df s t o) : 0 < r.effective_duration := by
  rcases mem_applyOverrides_duration o _ r hr with ⟨r0, hr0, hd, -⟩
  rw [hd]
  exact mem_truncate_fst_duration_pos vat df s t r0 hr0

theorem lossSum_nonneg (cats : List String) (l : List ProratedEvent)
    (h : ∀ r ∈ l, 0 ≤ r.effective_duration) : 0 ≤ lossSum cats l := by
  unfold lossSum
  refine List.sum_nonneg ?_
  intro x hx
  rcases List.mem_map.mp hx with ⟨r, hrl, rfl⟩
  exact h r (List.mem_filter.mp hrl).1

theorem calculate_oee_eq_of_ne (vat : List (String × ℚ)) (df : List RawEvent) (s t : ℚ)
    (o : List (String × String)) (hne : (truncate_events vat df s t).1 ≠ []) :
    calculate_oee vat df s t o =
      [("availability", round3 (if 0 < t - s then
          max ((t - s - lossSum ["unplanned_stop", "planned_stop"] (truncated_df vat df s t o)) / (t - s)) 0 else 0)),
       ("performance", round3 (if 0 < t - s then
          max (1 - lossSum ["small_stop", "speed_loss"] (truncated_df vat df s t o) / (t - s)) 0 else 0)),
       ("quality", round3 (if 0 < t - s then
          max (1 - lossSum ["rework/scrap", "startup_loss"] (truncated_df vat df s t o) / (t - s)) 0 else 0)),
       ("oee", round3
          ((if 0 < t - s then
            max ((t - s - lossSum ["unplanned_stop", "planned_stop"] (truncated_df vat df s t o)) / (t - s)) 0 else 0) *
           (if 0 < t - s then
            max (1 - lossSum ["small_stop", "speed_loss"] (truncated_df vat df s t o) / (t - s)) 0 else 0) *
           (if 0 < t - s then
            max (1 - lossSum ["rework/scrap", "startup_loss"] (truncated_df vat df s t o) / (t - s)) 0 else 0))),
       ("value_added_time", round2 (((truncated_df vat df s t o).map
          (fun r => r.prorated_value_added_time)).sum)),
       ("availability_losses", round2 (lossSum ["unplanned_stop", "planned_stop"] (truncated_df vat df s t o))),
       ("performance_losses", round2 (lossSum ["small_stop", "speed_loss"] (truncated_df vat df s t o))),
       ("quality_losses", round2 (lossSum ["rework/scrap", "startup_loss"] (truncated_df vat df s t o))),
       ("total_time", round2 (t - s))] := by
  have h : (truncated_df vat df s t o).isEmpty = false := by
    rw [List.isEmpty_eq_false]
    exact applyOverrides_ne_nil o _ hne
  simp only [calculate_oee, h]
  simp

theorem calculate_oee_eq_of_nil (vat : List (String × ℚ)) (df : List RawEvent) (s t : ℚ)
    (o : List (String × String)) (hnil : (truncate_events vat df s t).1 = []) :
    calculate_oee vat df s t o =
      [("availability", 0), ("performance", 0), ("quality", 0), ("oee", 0)] := by
  have h : (truncated_df vat df s t o).isEmpty = true := by
    unfold truncated_df
    rw [hnil, applyOverrides_nil]
    rfl
  simp only [calculate_oee, h]
  simp

theorem pyRound_bounds (q : ℚ) (n : ℤ) (h0 : 0 ≤ q) (hn : q ≤ (n : ℚ)) :
    0 ≤ pyRound q ∧ pyRound q ≤ n := by
  have hf0 : 0 ≤ ⌊q⌋ := Int.le_floor.mpr (by exact_mod_cast h0)
  have hfq : (⌊q⌋ : ℚ) ≤ q := Int.floor_le q
  have hfn : ⌊q⌋ ≤ n := by
    have := Int.floor_le_floor hn
    simpa using this
  have hstep : (1 / 2 : ℚ) ≤ q - ⌊q⌋ → ⌊q⌋ + 1 ≤ n := by
    intro hh
    have hlt : (⌊q⌋ : ℚ) < (n : ℚ) := by linarith
    have : ⌊q⌋ < n := by exact_mod_cast hlt
    omega
  simp only [pyRound]
  split_ifs with h1 h2 h3
  · exact ⟨hf0, hfn⟩
  · have := hstep (le_of_lt h2)
    constructor <;> omega
  · exact ⟨hf0, hfn⟩
  · have := hstep (le_of_not_lt h1)
    constructor <;> omega

theorem round3_unit (q : ℚ) (h0 : 0 ≤ q) (h1 : q ≤ 1) : 0 ≤ round3 q ∧ round3 q ≤ 1 := by
  have hb := pyRound_bounds (q * 1000) 1000 (by positivity) (by push_cast; linarith)
  unfold round3
  constructor
  · have : (0 : ℚ) ≤ (pyRound (q * 1000) : ℚ) := by exact_mod_cast hb.1
    positivity
  · rw [div_le_one (by norm_num)]
    exact_mod_cast hb.2

/-! ## Claim C1 -/

/-- Claim C1 as frozen is false: the code does not compute
`min(S, effective_duration)`.  Concrete input: configuration `op ↦ 50`,
event `[0, 200)` with category `x`, window `[100, 200)`.  The event survives
with `effective_duration = 100`, and `min(S, effective_duration) = 50`, but
the code returns prorated value-added time `0`, because it intersects the
expected window `[timestamp_start, timestamp_start + S) = [0, 50)` with the
analysis range `[100, 200)`. -/
theorem C1_counterexample :
    (truncate_events [("op", 50)] [⟨"op", 0, some 200, "x"⟩] 100 200).1.map
        (fun r => (r.prorated_value_added_time, r.effective_duration)) = [(0, 100)]
    ∧ ([("op", (50 : ℚ))].lookup "op" = some 50)
    ∧ (0 : ℚ) ≠ min 50 100 := by
  refine ⟨?_, rfl, by norm_num [min_def]⟩
  norm_num [truncate_events, toTrunc, prorateRow, calculate_prorated_value_added_time,
    List.lookup]

/-- Claim C1 (amended): for every event that survives truncation and whose
operation has a configuration entry with standard value-added time `S`, the
prorated value-added time computed for that event equals the clamped overlap
of the expected value-added interval `[timestamp_start, timestamp_start + S)`
with the analysis window `[start_time, end_time)`, namely
`max(min(timestamp_start + S, end_time) − max(timestamp_start, start_time), 0)`
— not `min(S, effective_duration)`: the event's actual end timestamp plays no
part in the proration. -/
theorem C1_amended_prorated_is_expected_overlap (vat : List (String × ℚ))
    (df : List RawEvent) (s t : ℚ) (r : ProratedEvent)
    (hr : r ∈ (truncate_events vat df s t).1) (S : ℚ)
    (hS : vat.lookup r.operation = some S) :
    r.prorated_value_added_time =
      max (min (r.timestamp_start + S) t - max r.timestamp_start s) 0 := by
  rw [truncate_events_fst] at hr
  rcases List.mem_map.mp hr with ⟨r0, hr0, rfl⟩
  have hS0 : vat.lookup r0.operation = some S := hS
  show calculate_prorated_value_added_time vat r0.operation r0.timestamp_start
    r0.timestamp_end s t = _
  simp only [calculate_prorated_value_added_time, hS0, prorateRow]

/-- Witness for `C1_amended_prorated_is_expected_overlap` at the
counterexample input: the surviving row carries prorated value-added time
`0 = max(min(0 + 50, 200) − max(0, 100), 0)`. -/
theorem C1_amended_prorated_is_expected_overlap_witness :
    (⟨⟨"op", 0, 200, "x", 100, 200, 100⟩, 0⟩ : ProratedEvent).prorated_value_added_time =
      max (min ((0 : ℚ) + 50) 200 - max (0 : ℚ) 100) 0 :=
  C1_amended_prorated_is_expected_overlap [("op", 50)] [⟨"op", 0, some 200, "x"⟩]
    100 200 ⟨⟨"op", 0, 200, "x", 100, 200, 100⟩, 0⟩
    (by norm_num [truncate_events, toTrunc, prorateRow,
      calculate_prorated_value_added_time, List.lookup])
    50 rfl

/-! ## Claim C2 -/

/-- Claim C2 as frozen is false: the prorated value-added time can exceed
`min(S, effective_duration)`.  Concrete input: configuration `op ↦ 100`,
event `[0, 10)`, window `[0, 200)`.  The event survives with
`effective_duration = 10`, yet the code returns prorated value-added time
`100` (the expected window `[0, 100)` lies inside the range), and
`¬(100 ≤ min(100, 10))`. -/
theorem C2_counterexample :
    (truncate_events [("op", 100)] [⟨"op", 0, some 10, "x"⟩] 0 200).1.map
        (fun r => (r.prorated_value_added_time, r.effective_duration)) = [(100, 10)]
    ∧ ([("op", (100 : ℚ))].lookup "op" = some 100)
    ∧ ¬ ((100 : ℚ) ≤ min 100 10) := by
  refine ⟨?_, rfl, by norm_num [min_def]⟩
  norm_num [truncate_events, toTrunc, prorateRow, calculate_prorated_value_added_time,
    List.lookup]

/-- Claim C2 (amended): for every event and window, the computed prorated
value-added time is never negative; for an operation without a configuration
entry it is `0`; and for an operation with a configured standard value-added
time `S ≥ 0` it never exceeds `S`.  (The frozen bound
`min(S, effective_duration)` fails: the bound by the event's effective
duration does not hold, as `C2_counterexample` shows.) -/
theorem C2_amended_prorated_bounds (vat : List (String × ℚ)) (op : String)
    (a b s t : ℚ) :
    0 ≤ calculate_prorated_value_added_time vat op a b s t
    ∧ (vat.lookup op = none → calculate_prorated_value_added_time vat op a b s t = 0)
    ∧ ∀ S, vat.lookup op = some S → 0 ≤ S →
        calculate_prorated_value_added_time vat op a b s t ≤ S := by
  refine ⟨?_, ?_, ?_⟩
  · unfold calculate_prorated_value_added_time
    cases h : vat.lookup op with
    | none => exact le_refl 0
    | some S => exact le_max_right _ 0
  · intro h
    unfold calculate_prorated_value_added_time
    rw [h]
  · intro S hS hS0
    unfold calculate_prorated_value_added_time
    rw [hS]
    refine max_le ?_ hS0
    have h1 : min (a + S) t ≤ a + S := min_le_left _ _
    have h2 : a ≤ max a s := le_max_left _ _
    linarith

/-- Witness for `C2_amended_prorated_bounds` at concrete inputs: with
configuration `op ↦ 100`, event timestamps `0`/`10` and window `[0, 200)`,
the prorated time is non-negative and at most `100`, and an unconfigured
operation `zz` prorates to `0`. -/
theorem C2_amended_prorated_bounds_witness :
    0 ≤ calculate_prorated_value_added_time [("op", 100)] "op" 0 10 0 200
    ∧ calculate_prorated_value_added_time [("op", 100)] "zz" 0 10 0 200 = 0
    ∧ calculate_prorated_value_added_time [("op", 100)] "op" 0 10 0 200 ≤ 100 :=
  ⟨(C2_amended_prorated_bounds [("op", 100)] "op" 0 10 0 200).1,
   (C2_amended_prorated_bounds [("op", 100)] "zz" 0 10 0 200).2.1 rfl,
   (C2_amended_prorated_bounds [("op", 100)] "op" 0 10 0 200).2.2 100 rfl (by norm_num)⟩

/-! ## Claim C3 -/

/-- Claim C3 is violated by the code: `truncate_events` writes columns onto
the caller's DataFrame in place (source lines 49-62).  Concrete input: one
event with operation `a`, start `0`, a missing end timestamp, and category
`c`, truncated to the window `[0, 100)`.  After the call the caller's table
no longer matches the original through the original schema — the missing end
timestamp has been rewritten in place to the window end `100` (and the three
`effective_*` columns have been added). -/
theorem C3_truncate_mutates_caller :
    ((truncate_events [] [⟨"a", 0, none, "c"⟩] 0 100).2.map callerView
      ≠ [⟨"a", 0, none, "c"⟩])
    ∧ ((truncate_events [] [⟨"a", 0, none, "c"⟩] 0 100).2.map
        (fun r => r.timestamp_end) = [100]) := by
  constructor
  · norm_num [truncate_events, toTrunc, callerView, RawEvent.mk.injEq]
    simp
  · norm_num [truncate_events, toTrunc]

/-! ## Claim C5 -/

/-- Claim C5: the truncator leaves the caller's table as the map of the
per-row normalization, whose fields satisfy
`effective_start = max(event.start, start_time)`,
`effective_end = min(event.end, end_time)` and
`effective_duration = max(0, effective_end − effective_start)`; and an event
whose effective duration is `0` is excluded from every downstream aggregate:
with it removed from the batch, `truncate_events` returns the same surviving
table and `calculate_oee` returns the identical result record. -/
theorem C5_truncation_formulas_and_exclusion (vat : List (String × ℚ)) (s t : ℚ)
    (o : List (String × String)) (e : RawEvent) (pre post : List RawEvent)
    (h : max (min (e.timestamp_end.getD t) t - max e.timestamp_start s) 0 = 0) :
    (∀ df : List RawEvent, (truncate_events vat df s t).2 = df.map (toTrunc s t))
    ∧ (∀ e' : RawEvent,
        (toTrunc s t e').effective_start = max e'.timestamp_start s
        ∧ (toTrunc s t e').effective_end = min (e'.timestamp_end.getD t) t
        ∧ (toTrunc s t e').effective_duration =
            max ((toTrunc s t e').effective_end - (toTrunc s t e').effective_start) 0)
    ∧ (truncate_events vat (pre ++ e :: post) s t).1
        = (truncate_events vat (pre ++ post) s t).1
    ∧ calculate_oee vat (pre ++ e :: post) s t o = calculate_oee vat (pre ++ post) s t o := by
  have key : (truncate_events vat (pre ++ e :: post) s t).1
      = (truncate_events vat (pre ++ post) s t).1 := by
    rw [truncate_events_fst, truncate_events_fst]
    congr 1
    rw [List.map_append, List.map_append, List.map_cons, List.filter_append,
      List.filter_append, List.filter_cons]
    have hd : (toTrunc s t e).effective_duration = 0 := h
    rw [if_neg]
    simp [hd]
  refine ⟨fun df => rfl, fun e' => ⟨rfl, rfl, rfl⟩, key, ?_⟩
  simp only [calculate_oee, truncated_df, key]

/-- Witness for `C5_truncation_formulas_and_exclusion`: the event
`[300, 400)` lies entirely after the window `[0, 100)`, its clamped duration
is `0`, and dropping it from the batch leaves the `calculate_oee` result
unchanged. -/
theorem C5_truncation_formulas_and_exclusion_witness :
    calculate_oee [] [⟨"b", 0, some 50, "unplanned_stop"⟩, ⟨"a", 300, some 400, "c"⟩]
        0 100 []
      = calculate_oee [] [⟨"b", 0, some 50, "unplanned_stop"⟩] 0 100 [] :=
  (C5_truncation_formulas_and_exclusion [] 0 100 [] ⟨"a", 300, some 400, "c"⟩
    [⟨"b", 0, some 50, "unplanned_stop"⟩] []
    (by norm_num [Option.getD, min_def, max_def])).2.2.2

/-! ## Claim C6 -/

/-- Claim C6: for a degenerate window (start at or after end) no event
survives truncation, and whenever no event survives (in particular for the
empty batch) `calculate_oee` returns availability, performance, quality and
oee all `0`.  The embedding is total, so no exception is possible. -/
theorem C6_degenerate_window_all_zero (vat : List (String × ℚ)) (df : List RawEvent)
    (s t : ℚ) (o : List (String × String)) :
    (t ≤ s → calculate_oee vat df s t o =
      [("availability", 0), ("performance", 0), ("quality", 0), ("oee", 0)])
    ∧ ((truncate_events vat df s t).1 = [] → calculate_oee vat df s t o =
      [("availability", 0), ("performance", 0), ("quality", 0), ("oee", 0)]) := by
  have hdeg : t ≤ s → (truncate_events vat df s t).1 = [] := by
    intro h
    rw [truncate_events_fst]
    have hnil : (df.map (toTrunc s t)).filter (fun r => 0 < r.effective_duration) = [] := by
      rw [List.filter_eq_nil_iff]
      intro r hr
      rcases List.mem_map.mp hr with ⟨e, -, rfl⟩
      have hle : min (e.timestamp_end.getD t) t - max e.timestamp_start s ≤ 0 := by
        have h1 : min (e.timestamp_end.getD t) t ≤ t := min_le_right _ _
        have h2 : s ≤ max e.timestamp_start s := le_max_right _ _
        linarith
      have hd : (toTrunc s t e).effective_duration = 0 := max_eq_right hle
      simp [hd]
    rw [hnil]
    rfl
  exact ⟨fun h => calculate_oee_eq_of_nil vat df s t o (hdeg h),
         fun h => calculate_oee_eq_of_nil vat df s t o h⟩

/-- Witness for `C6_degenerate_window_all_zero`: an inverted window `[5, 3)`
over a one-event batch, and an empty batch over the window `[0, 100)`, both
give all four outputs `0`. -/
theorem C6_degenerate_window_all_zero_witness :
    calculate_oee [] [⟨"a", 0, some 1, "c"⟩] 5 3 [] =
      [("availability", 0), ("performance", 0), ("quality", 0), ("oee", 0)]
    ∧ calculate_oee [] [] 0 100 [] =
      [("availability", 0), ("performance", 0), ("quality", 0), ("oee", 0)] :=
  ⟨(C6_degenerate_window_all_zero [] [⟨"a", 0, some 1, "c"⟩] 5 3 []).1 (by norm_num),
   (C6_degenerate_window_all_zero [] [] 0 100 []).2 rfl⟩

/-! ## Claim C7 -/

/-- Claim C7: for every event whose end timestamp is missing or unparsable
(coerced to `NaT`, modelled as `none`), the normalization step inside
`truncate_events` sets that event's end timestamp to the window's `end_time`
before truncation, so the event is treated as running through the end of the
analysis window. -/
theorem C7_missing_end_filled_with_end_time (vat : List (String × ℚ))
    (df : List RawEvent) (s t : ℚ) (e : RawEvent) (he : e.timestamp_end = none)
    (i : ℕ) (hi : df[i]? = some e) :
    ((truncate_events vat df s t).2[i]?).map TruncEvent.timestamp_end = some t := by
  rw [truncate_events_snd, List.getElem?_map, hi]
  simp [toTrunc, he]

/-- Witness for `C7_missing_end_filled_with_end_time`: a single event with a
missing end timestamp, truncated to the window `[0, 100)`, ends up with end
timestamp `100` in the normalized table. -/
theorem C7_missing_end_filled_with_end_time_witness :
    ((truncate_events [] [⟨"a", 0, none, "c"⟩] 0 100).2[0]?).map TruncEvent.timestamp_end
      = some 100 :=
  C7_missing_end_filled_with_end_time [] [⟨"a", 0, none, "c"⟩] 0 100
    ⟨"a", 0, none, "c"⟩ rfl 0 rfl

/-! ## Claim C8 -/

theorem lossSum_append (cats : List String) (l m : List ProratedEvent) :
    lossSum cats (l ++ m) = lossSum cats l + lossSum cats m := by
  unfold lossSum
  rw [List.filter_append, List.map_append, List.sum_append]

theorem lossSum_cons (cats : List String) (r : ProratedEvent) (l : List ProratedEvent) :
    lossSum cats (r :: l) =
      (if cats.contains r.loss_category then r.effective_duration else 0) + lossSum cats l := by
  unfold lossSum
  rw [List.filter_cons]
  split
  · simp
  · simp

/-- Claim C8: applying a supplied override mapping replaces the loss category
of each surviving event whose operation appears in the mapping and keeps the
original category of every other event (first conjunct, covering the empty
mapping as well); consequently, recategorizing an event from `unknown_loss`
(a category outside every loss group) to `speed_loss` increases only the
performance-loss sum, by exactly that event's effective duration, leaving the
availability-loss and quality-loss sums unchanged (second conjunct). -/
theorem C8_override_semantics (o : List (String × String)) (l : List ProratedEvent) :
    applyOverrides o l = l.map (fun r =>
      { r with loss_category := (o.lookup r.operation).getD r.loss_category })
    ∧ ∀ (pre post : List ProratedEvent) (r : ProratedEvent),
        r.loss_category = "unknown_loss" →
        (lossSum ["unplanned_stop", "planned_stop"]
            (pre ++ { r with loss_category := "speed_loss" } :: post)
          = lossSum ["unplanned_stop", "planned_stop"] (pre ++ r :: post))
        ∧ (lossSum ["small_stop", "speed_loss"]
            (pre ++ { r with loss_category := "speed_loss" } :: post)
          = lossSum ["small_stop", "speed_loss"] (pre ++ r :: post) + r.effective_duration)
        ∧ (lossSum ["rework/scrap", "startup_loss"]
            (pre ++ { r with loss_category := "speed_loss" } :: post)
          = lossSum ["rework/scrap", "startup_loss"] (pre ++ r :: post)) := by
  constructor
  · unfold applyOverrides
    split
    · next hemp =>
      have ho : o = [] := by
        cases o with
        | nil => rfl
        | cons a l2 => simp at hemp
      subst ho
      have hid : ∀ r : ProratedEvent,
          { r with loss_category :=
              (([] : List (String × String)).lookup r.operation).getD r.loss_category } = r :=
        fun r => rfl
      simp only [hid, List.map_id']
    · rfl
  · intro pre post r hr
    refine ⟨?_, ?_, ?_⟩ <;> (simp [lossSum_append, lossSum_cons, hr]; try ring)

/-! ## Claim C4 -/

/-- Claim C4: on the normal path (positive window span and at least one
surviving event) `calculate_oee` returns
`availability = max(0, (total_time − availability_losses)/total_time)`,
`performance = max(0, 1 − performance_losses/total_time)`,
`quality = max(0, 1 − quality_losses/total_time)` and
`oee = availability × performance × quality`, each ratio subjected to the
3-decimal output rounding (and each diagnostic total to the 2-decimal
rounding). -/
theorem C4_component_formulas (vat : List (String × ℚ)) (df : List RawEvent) (s t : ℚ)
    (o : List (String × String)) (hT : 0 < t - s)
    (hne : (truncate_events vat df s t).1 ≠ []) :
    calculate_oee vat df s t o =
      [("availability", round3 (max ((t - s -
          lossSum ["unplanned_stop", "planned_stop"] (truncated_df vat df s t o)) / (t - s)) 0)),
       ("performance", round3 (max (1 -
          lossSum ["small_stop", "speed_loss"] (truncated_df vat df s t o) / (t - s)) 0)),
       ("quality", round3 (max (1 -
          lossSum ["rework/scrap", "startup_loss"] (truncated_df vat df s t o) / (t - s)) 0)),
       ("oee", round3 (max ((t - s -
            lossSum ["unplanned_stop", "planned_stop"] (truncated_df vat df s t o)) / (t - s)) 0 *
          max (1 - lossSum ["small_stop", "speed_loss"] (truncated_df vat df s t o) / (t - s)) 0 *
          max (1 - lossSum ["rework/scrap", "startup_loss"] (truncated_df vat df s t o) / (t - s)) 0)),
       ("value_added_time", round2 (((truncated_df vat df s t o).map
          (fun r => r.prorated_value_added_time)).sum)),
       ("availability_losses", round2
          (lossSum ["unplanned_stop", "planned_stop"] (truncated_df vat df s t o))),
       ("performance_losses", round2
          (lossSum ["small_stop", "speed_loss"] (truncated_df vat df s t o))),
       ("quality_losses", round2
          (lossSum ["rework/scrap", "startup_loss"] (truncated_df vat df s t o))),
       ("total_time", round2 (t - s))] := by
  rw [calculate_oee_eq_of_ne vat df s t o hne]
  simp only [if_pos hT]

/-! ## Claim C9 -/

/-- Claim C9: for every well-formed, non-degenerate input (positive window
span and at least one surviving event), each of the four returned ratio
values — availability, performance, quality and oee — lies in `[0, 1]`,
even though the code clamps only at the floor of `0`. -/
theorem C9_components_in_unit_interval (vat : List (String × ℚ)) (df : List RawEvent)
    (s t : ℚ) (o : List (String × String)) (hT : 0 < t - s)
    (hne : (truncate_events vat df s t).1 ≠ []) (k : String) (v : ℚ)
    (hk : (k, v) ∈ calculate_oee vat df s t o)
    (h4 : k = "availability" ∨ k = "performance" ∨ k = "quality" ∨ k = "oee") :
    0 ≤ v ∧ v ≤ 1 := by
  have hd : ∀ r ∈ truncated_df vat df s t o, 0 ≤ r.effective_duration :=
    fun r hr => le_of_lt (truncated_df_duration_pos vat df s t o r hr)
  have hA : 0 ≤ lossSum ["unplanned_stop", "planned_stop"] (truncated_df vat df s t o) :=
    lossSum_nonneg _ _ hd
  have hP : 0 ≤ lossSum ["small_stop", "speed_loss"] (truncated_df vat df s t o) :=
    lossSum_nonneg _ _ hd
  have hQ : 0 ≤ lossSum ["rework/scrap", "startup_loss"] (truncated_df vat df s t o) :=
    lossSum_nonneg _ _ hd
  rw [calculate_oee_eq_of_ne vat df s t o hne] at hk
  simp only [if_pos hT] at hk
  set A := lossSum ["unplanned_stop", "planned_stop"] (truncated_df vat df s t o)
  set P := lossSum ["small_stop", "speed_loss"] (truncated_df vat df s t o)
  set Q := lossSum ["rework/scrap", "startup_loss"] (truncated_df vat df s t o)
  set a := max ((t - s - A) / (t - s)) 0 with hadef
  set p := max (1 - P / (t - s)) 0 with hpdef
  set q := max (1 - Q / (t - s)) 0 with hqdef
  have ha1 : 0 ≤ a := le_max_right _ _
  have ha2 : a ≤ 1 := max_le (by rw [div_le_one hT]; linarith) zero_le_one
  have hp1 : 0 ≤ p := le_max_right _ _
  have hp2 : p ≤ 1 := max_le (by
    have hdiv : 0 ≤ P / (t - s) := div_nonneg hP (le_of_lt hT)
    linarith) zero_le_one
  have hq1 : 0 ≤ q := le_max_right _ _
  have hq2 : q ≤ 1 := max_le (by
    have hdiv : 0 ≤ Q / (t - s) := div_nonneg hQ (le_of_lt hT)
    linarith) zero_le_one
  have ho1 : 0 ≤ a * p * q := mul_nonneg (mul_nonneg ha1 hp1) hq1
  have ho2 : a * p * q ≤ 1 := mul_le_one₀ (mul_le_one₀ ha2 hp1 hp2) hq1 hq2
  rcases h4 with rfl | rfl | rfl | rfl
  · simp only [List.mem_cons, List.not_mem_nil, or_false, Prod.mk.injEq] at hk
    simp at hk
    subst hk
    exact round3_unit a ha1 ha2
  · simp only [List.mem_cons, List.not_mem_nil, or_false, Prod.mk.injEq] at hk
    simp at hk
    subst hk
    exact round3_unit p hp1 hp2
  · simp only [List.mem_cons, List.not_mem_nil, or_false, Prod.mk.injEq] at hk
    simp at hk
    subst hk
    exact round3_unit q hq1 hq2
  · simp only [List.mem_cons, List.not_mem_nil, or_false, Prod.mk.injEq] at hk
    simp at hk
    subst hk
    exact round3_unit _ ho1 ho2

/-! ## Claim C10 -/

/-- Claim C10: the shape of the result record depends on the input.  When no
event survives truncation the record has exactly the keys availability,
performance, quality, oee (in that order); on the normal path it additionally
has value_added_time, availability_losses, performance_losses,
quality_losses and total_time, so the diagnostic totals are absent (not
zero) for a quiet window. -/
theorem C10_result_keys (vat : List (String × ℚ)) (df : List RawEvent) (s t : ℚ)
    (o : List (String × String)) :
    ((truncate_events vat df s t).1 = [] →
      (calculate_oee vat df s t o).map Prod.fst =
        ["availability", "performance", "quality", "oee"])
    ∧ ((truncate_events vat df s t).1 ≠ [] →
      (calculate_oee vat df s t o).map Prod.fst =
        ["availability", "performance", "quality", "oee", "value_added_time",
         "availability_losses", "performance_losses", "quality_losses", "total_time"]) := by
  constructor
  · intro h
    rw [calculate_oee_eq_of_nil vat df s t o h]
    rfl
  · intro h
    rw [calculate_oee_eq_of_ne vat df s t o h]
    rfl

/-! ## Remaining witnesses -/

/-- Witness for `C4_component_formulas`: one event `[0, 50)` categorized
`unplanned_stop` in the window `[0, 100)` with an empty configuration; the
result record is exactly the rounded component formulas. -/
theorem C4_component_formulas_witness :
    calculate_oee [] [⟨"b", 0, some 50, "unplanned_stop"⟩] 0 100 [] =
      [("availability", round3 (max ((100 - 0 -
          lossSum ["unplanned_stop", "planned_stop"]
            (truncated_df [] [⟨"b", 0, some 50, "unplanned_stop"⟩] 0 100 [])) / (100 - 0)) 0)),
       ("performance", round3 (max (1 -
          lossSum ["small_stop", "speed_loss"]
            (truncated_df [] [⟨"b", 0, some 50, "unplanned_stop"⟩] 0 100 []) / (100 - 0)) 0)),
       ("quality", round3 (max (1 -
          lossSum ["rework/scrap", "startup_loss"]
            (truncated_df [] [⟨"b", 0, some 50, "unplanned_stop"⟩] 0 100 []) / (100 - 0)) 0)),
       ("oee", round3 (max ((100 - 0 -
            lossSum ["unplanned_stop", "planned_stop"]
              (truncated_df [] [⟨"b", 0, some 50, "unplanned_stop"⟩] 0 100 [])) / (100 - 0)) 0 *
          max (1 - lossSum ["small_stop", "speed_loss"]
              (truncated_df [] [⟨"b", 0, some 50, "unplanned_stop"⟩] 0 100 []) / (100 - 0)) 0 *
          max (1 - lossSum ["rework/scrap", "startup_loss"]
              (truncated_df [] [⟨"b", 0, some 50, "unplanned_stop"⟩] 0 100 []) / (100 - 0)) 0)),
       ("value_added_time", round2
          (((truncated_df [] [⟨"b", 0, some 50, "unplanned_stop"⟩] 0 100 []).map
            (fun r => r.prorated_value_added_time)).sum)),
       ("availability_losses", round2 (lossSum ["unplanned_stop", "planned_stop"]
          (truncated_df [] [⟨"b", 0, some 50, "unplanned_stop"⟩] 0 100 []))),
       ("performance_losses", round2 (lossSum ["small_stop", "speed_loss"]
          (truncated_df [] [⟨"b", 0, some 50, "unplanned_stop"⟩] 0 100 []))),
       ("quality_losses", round2 (lossSum ["rework/scrap", "startup_loss"]
          (truncated_df [] [⟨"b", 0, some 50, "unplanned_stop"⟩] 0 100 []))),
       ("total_time", round2 (100 - 0))] :=
  C4_component_formulas [] [⟨"b", 0, some 50, "unplanned_stop"⟩] 0 100 []
    (by norm_num)
    (by norm_num [truncate_events, toTrunc, prorateRow,
      calculate_prorated_value_added_time, List.lookup])

/-- Witness for `C8_override_semantics`: the override `m ↦ speed_loss` on a
one-row table matches the per-row description, and recategorizing the row
(duration `10`, originally `unknown_loss`) to `speed_loss` adds exactly `10`
to the performance-loss sum. -/
theorem C8_override_semantics_witness :
    applyOverrides [("m", "speed_loss")]
        [(⟨⟨"m", 0, 10, "unknown_loss", 0, 10, 10⟩, 0⟩ : ProratedEvent)]
      = [(⟨⟨"m", 0, 10, "unknown_loss", 0, 10, 10⟩, 0⟩ : ProratedEvent)].map (fun r =>
          { r with loss_category :=
              ([("m", "speed_loss")].lookup r.operation).getD r.loss_category })
    ∧ lossSum ["small_stop", "speed_loss"]
        [(⟨⟨"m", 0, 10, "speed_loss", 0, 10, 10⟩, 0⟩ : ProratedEvent)]
      = lossSum ["small_stop", "speed_loss"]
          [(⟨⟨"m", 0, 10, "unknown_loss", 0, 10, 10⟩, 0⟩ : ProratedEvent)] + 10 :=
  ⟨(C8_override_semantics [("m", "speed_loss")]
      [⟨⟨"m", 0, 10, "unknown_loss", 0, 10, 10⟩, 0⟩]).1,
   ((C8_override_semantics [("m", "speed_loss")]
      [⟨⟨"m", 0, 10, "unknown_loss", 0, 10, 10⟩, 0⟩]).2
      [] [] ⟨⟨"m", 0, 10, "unknown_loss", 0, 10, 10⟩, 0⟩ rfl).2.1⟩

/-- Witness for `C9_components_in_unit_interval`: the availability value
`1/2` returned for the event `[0, 50)` with category `unplanned_stop` in the
window `[0, 100)` lies in `[0, 1]`. -/
theorem C9_components_in_unit_interval_witness : 0 ≤ (1/2 : ℚ) ∧ (1/2 : ℚ) ≤ 1 :=
  C9_components_in_unit_interval [] [⟨"b", 0, some 50, "unplanned_stop"⟩] 0 100 []
    (by norm_num)
    (by norm_num [truncate_events, toTrunc, prorateRow,
      calculate_prorated_value_added_time, List.lookup])
    "availability" (1/2)
    (by norm_num [calculate_oee, truncated_df, applyOverrides, truncate_events, toTrunc,
      prorateRow, calculate_prorated_value_added_time, List.lookup, lossSum,
      List.contains, round3, round2, pyRound])
    (Or.inl rfl)

/-- Witness for `C10_result_keys`: an empty batch yields exactly the four
ratio keys; a batch with one surviving event yields the nine keys including
the diagnostic totals. -/
theorem C10_result_keys_witness :
    (calculate_oee [] [] 0 100 []).map Prod.fst =
      ["availability", "performance", "quality", "oee"]
    ∧ (calculate_oee [] [⟨"b", 0, some 50, "unplanned_stop"⟩] 0 100 []).map Prod.fst =
      ["availability", "performance", "quality", "oee", "value_added_time",
       "availability_losses", "performance_losses", "quality_losses", "total_time"] :=
  ⟨(C10_result_keys [] [] 0 100 []).1 rfl,
   (C10_result_keys [] [⟨"b", 0, some 50, "unplanned_stop"⟩] 0 100 []).2
     (by norm_num [truncate_events, toTrunc, prorateRow,
       calculate_prorated_value_added_time, List.lookup])⟩
